import Mathlib

/-!
Verification model of the pycord-v3 entity-polymorphism and payload-dispatch
subsystem: the channel discriminator (`pycord/channel.py`), the application
command declaration and option model, the interaction option decoder
(`pycord/commands/application/command.py`), and the interaction response
guard (`pycord/interaction.py`).

Python values and failure modes are embedded shallowly:

* tri-state wire fields (absent / explicit null / present) are the `Tri` type;
  the `MISSING` sentinel is `Tri.missing`;
* dictionaries become association lists; a failed `d[k]` access becomes an
  `Except.error (PyErr.keyError k)`;
* calling a `None` callback (Python `TypeError: 'NoneType' object is not
  callable`) becomes `PyErr.typeErrorNoneCall`; reading an attribute that was
  never assigned becomes `PyErr.attributeError`;
* `ApplicationCommandException` (the spec's DeclarationError) becomes
  `PyErr.appCommandException` and `InteractionException` becomes
  `PyErr.interactionException`.
-/

/-- Tri-state wire value: `missing` is the `MISSING` sentinel (key absent),
`null` is an explicit `None`, `val` is a present value. -/
inductive Tri (α : Type) where
  | missing
  | null
  | val (a : α)
deriving DecidableEq

/-- Scalar wire values carried by interaction option nodes (strings, integers,
booleans); snowflake ids arrive as strings. -/
inductive ScalarVal where
  | s (v : String)
  | i (v : Int)
  | b (v : Bool)
deriving DecidableEq

/-- Python `str()` applied to a scalar, as used by `_autocomplete`. -/
def pyStr : ScalarVal → String
  | .s v => v
  | .i v => toString v
  | .b v => if v then "True" else "False"

/-- JSON-like Python values appearing in serialized payloads. `vmissing` is
the `MISSING` sentinel, which serializers are supposed to strip. -/
inductive PyVal where
  | vmissing
  | vnull
  | vstr (s : String)
  | vint (n : Int)
  | vbool (b : Bool)
  | vlist (l : List PyVal)
  | vdict (d : List (String × PyVal))

/-- Errors raised by the modelled code paths. -/
inductive PyErr where
  | typeErrorNoneCall
  | keyError (k : String)
  | indexError
  | attributeError
  | appCommandException (msg : String)
  | interactionException (msg : String)
deriving DecidableEq

/-- Association-list lookup, first match wins (Python `d[k]` / `d.get(k)`). -/
def alookup {α β : Type} [DecidableEq α] : List (α × β) → α → Option β
  | [], _ => none
  | (k, v) :: t, k' => if k' = k then some v else alookup t k'

/-- Association-list insertion with Python `d[k] = v` semantics: replace the
existing entry in place, else append (dicts preserve insertion order). -/
def dinsert {α β : Type} [DecidableEq α] : List (α × β) → α → β → List (α × β)
  | [], k, v => [(k, v)]
  | (k0, v0) :: t, k, v =>
      if k = k0 then (k, v) :: t else (k0, v0) :: dinsert t k v

/-- Dictionary lookup that raises `KeyError` on a miss, as `d[k]` does. -/
def lookupE {α β : Type} [DecidableEq α] (l : List (α × β)) (k : α)
    (errKey : String) : Except PyErr β :=
  match alookup l k with
  | some v => .ok v
  | none => .error (.keyError errKey)

/-- True when the value is not the `MISSING` sentinel. -/
def notMissing : PyVal → Bool
  | .vmissing => false
  | _ => true

/-- Modelled from the spec: `remove_undefined` (pycord/utils.py, not under
src/). Per the spec's serializer contract it must "drop key if unset; emit
null if explicit null; emit value otherwise", so it removes exactly the
entries whose value is the `MISSING` sentinel. -/
def remove_undefined (l : List (String × PyVal)) : List (String × PyVal) :=
  l.filter (fun p => notMissing p.2)

/-- Whether `pre` is a leading segment of `l` (Python-style prefix test used
to express substring containment below). -/
def leadsWith : List Char → List Char → Bool
  | [], _ => true
  | _ :: _, [] => false
  | a :: s, b :: t => a == b && leadsWith s t

/-- Python `str.lower()`: lower-case character for character. -/
def strLower (s : String) : String :=
  ⟨s.data.map Char.toLower⟩

/-- Python `sub in hay` on strings: `sub` occurs contiguously in `hay`. -/
def containsSub (hay sub : List Char) : Bool :=
  match hay with
  | [] => sub.isEmpty
  | _ :: t => leadsWith sub hay || containsSub t sub

/-! ## Channel discriminator (pycord/channel.py) -/

/-- Concrete channel classes of pycord/channel.py that `identify_channel` can
return. -/
inductive ChannelCtor where
  | textChannel
  | dMChannel
  | voiceChannel
  | groupDMChannel
  | categoryChannel
  | announcementChannel
  | announcementThread
  | thread
  | stageChannel
  | directoryChannel
  | forumChannel
  | channel
deriving DecidableEq

/-- Wire payload fields read by the base `Channel.__init__`: `id`, `type`,
optional `name`, optional `flags`. Variant-specific extra fields are not
consulted by the discriminator and are omitted. -/
structure ChannelData where
  id : String
  ctype : Nat
  cname : Tri String
  flags : Tri Nat
deriving DecidableEq

/-- Fields stored by `Channel.__init__`. The `ChannelType(data['type'])` and
`ChannelFlags.from_value` wrappers (pycord/enums.py and pycord/flags.py, not
under src/) are modelled from the spec as carrying the raw code through:
the spec guarantees construction is total and unknown discriminants are kept
("unknown discriminants fall back to the base entity (never an error)"). -/
structure ChannelBase where
  id : String
  ctype : Nat
  cname : Tri String
  flags : Tri Nat
deriving DecidableEq

/-- The result of `identify_channel`: which concrete class was constructed,
with the base fields every class stores through `Channel.__init__`. -/
structure ChannelVariant where
  ctor : ChannelCtor
  base : ChannelBase
deriving DecidableEq

/-- Base construction shared by every branch (`Channel.__init__`). -/
def channelBaseInit (d : ChannelData) : ChannelBase :=
  { id := d.id, ctype := d.ctype, cname := d.cname, flags := d.flags }

/-- The `identify_channel` dispatch of pycord/channel.py, branch for branch:
switch on `data['type']`, construct the matching class, else the base
`Channel`. Note the source has no branch for type 3. -/
def identify_channel (data : ChannelData) : ChannelVariant :=
  let type := data.ctype
  if type == 0 then ⟨.textChannel, channelBaseInit data⟩
  else if type == 1 then ⟨.dMChannel, channelBaseInit data⟩
  else if type == 2 then ⟨.voiceChannel, channelBaseInit data⟩
  else if type == 4 then ⟨.categoryChannel, channelBaseInit data⟩
  else if type == 5 then ⟨.announcementChannel, channelBaseInit data⟩
  else if type == 10 then ⟨.announcementThread, channelBaseInit data⟩
  else if type == 11 || type == 12 then ⟨.thread, channelBaseInit data⟩
  else if type == 13 then ⟨.stageChannel, channelBaseInit data⟩
  else if type == 14 then ⟨.directoryChannel, channelBaseInit data⟩
  else if type == 15 then ⟨.forumChannel, channelBaseInit data⟩
  else ⟨.channel, channelBaseInit data⟩

/-- The discriminant each concrete class is documented to represent, read
off the class-level comments of pycord/channel.py ("# Type 0" on TextChannel
through "# Type 15" on ForumChannel, "# Type 3" on GroupDMChannel,
"# Type 11 & 12" on Thread). Codes with no documented class map to none. -/
def documentedChannelVariant : Nat → Option ChannelCtor
  | 0 => some .textChannel
  | 1 => some .dMChannel
  | 2 => some .voiceChannel
  | 3 => some .groupDMChannel
  | 4 => some .categoryChannel
  | 5 => some .announcementChannel
  | 10 => some .announcementThread
  | 11 => some .thread
  | 12 => some .thread
  | 13 => some .stageChannel
  | 14 => some .directoryChannel
  | 15 => some .forumChannel
  | _ => none

/-! ## CommandChoice and the default autocompleter
(pycord/commands/application/command.py) -/

/-- A `CommandChoice` object. `value?` is the `value` attribute: per
`CommandChoice.__init__`, the attribute is assigned (to `name`) only when the
`value` argument is `None`; otherwise it is never set, so `value? = none`
models an unset attribute whose access raises `AttributeError`. -/
structure CommandChoice where
  name : String
  value? : Option ScalarVal
  nameLoc : Option (List (String × String))
deriving DecidableEq

/-- Construction `CommandChoice(name, name_localizations, value)`: the body
runs `if value is None: self.value = name` and stores the localizations; a
non-`None` `value` argument leaves the `value` attribute unset. -/
def commandChoiceInit (name : String) (nameLoc : Option (List (String × String)))
    (value : Option ScalarVal) : CommandChoice :=
  { name := name,
    value? := match value with
      | none => some (.s name)
      | some _ => none,
    nameLoc := nameLoc }

/-- Serialization of a localization mapping into a payload value. -/
def encLoc (d : List (String × String)) : PyVal :=
  .vdict (d.map (fun p => (p.1, .vstr p.2)))

/-- Serialization of an optional localization mapping (`None` becomes null). -/
def encOptLoc : Option (List (String × String)) → PyVal
  | none => .vnull
  | some d => encLoc d

/-- Scalar serialization. -/
def encScalar : ScalarVal → PyVal
  | .s v => .vstr v
  | .i v => .vint v
  | .b v => .vbool v

/-- `CommandChoice._to_dict`: reads `self.value`, raising `AttributeError`
when the attribute was never assigned. -/
def choiceToDictE (c : CommandChoice) : Except PyErr PyVal :=
  match c.value? with
  | none => .error .attributeError
  | some v => .ok (.vdict [("name", .vstr c.name), ("value", encScalar v),
      ("name_localizations", encOptLoc c.nameLoc)])

/-- Pure image of `CommandChoice._to_dict` for choices whose `value`
attribute is assigned; used only to state theorems (the dead branch emits
null). -/
def choiceToDict (c : CommandChoice) : PyVal :=
  .vdict [("name", .vstr c.name),
    ("value", encScalar (c.value?.getD (.s ""))),
    ("name_localizations", encOptLoc c.nameLoc)]

/-- The comparison performed by the default completer on one choice:
`string in str(choice.value).lower()` after `string` was lower-cased
(false is never observed for an unset value, whose access raises first). -/
def acMatch (c : CommandChoice) (stringLower : String) : Bool :=
  match c.value? with
  | some v => containsSub (strLower (pyStr v)).data stringLower.data
  | none => false

/-- The module-level default completer `_autocomplete`: lower-case the
input, then keep `choice._to_dict()` for every choice of `option._choices`
whose lower-cased `str(choice.value)` contains it. Each considered choice's
`value` attribute is read, so an unset one raises `AttributeError`. -/
def pyAutocompleteGo : List CommandChoice → String → Except PyErr (List PyVal)
  | [], _ => .ok []
  | c :: t, sl => do
      let v ← match c.value? with
        | none => Except.error PyErr.attributeError
        | some v => Except.ok v
      let d := PyVal.vdict [("name", .vstr c.name), ("value", encScalar v),
        ("name_localizations", encOptLoc c.nameLoc)]
      let r ← pyAutocompleteGo t sl
      .ok (if containsSub (strLower (pyStr v)).data sl.data then d :: r else r)

/-- The comprehension of `_autocomplete` over the whole choice list, with
the input already lower-cased. -/
def pyAutocomplete (choices : List CommandChoice) (string : String) :
    Except PyErr (List PyVal) :=
  pyAutocompleteGo choices (strLower string)

/-! ## The Option declaration model
(class Option of pycord/commands/application/command.py)

Python `Option` objects are mutable and form trees (`options`, `_subs`), so
the embedding is a mutual inductive with its own list types (`POptList`,
`SubList`) to keep every recursion structural. -/

/-- Keys of the wire-type lookup table `_OPTION_BIND`. -/
inductive BindKey where
  | strT
  | intT
  | boolT
  | floatT
  | userT
  | channelT
  | roleT
  | attachT
deriving DecidableEq

/-- The `_OPTION_BIND` table: native annotation type to wire-type code
(STRING 3, INTEGER 4, BOOLEAN 5, NUMBER 10, USER 6, CHANNEL 7, ROLE 8,
ATTACHMENT 11). -/
def optionBind : BindKey → Nat
  | .strT => 3
  | .intT => 4
  | .boolT => 5
  | .floatT => 10
  | .userT => 6
  | .channelT => 7
  | .roleT => 8
  | .attachT => 11

/-- The `type` argument of `Option.__init__`: an enum member, a plain int, or
a native type resolved through `_OPTION_BIND`. -/
inductive OptTypeArg where
  | enumT (n : Nat)
  | rawInt (n : Nat)
  | pyType (k : BindKey)
deriving DecidableEq

/-- Scalar fields of an `Option` object (everything except the recursive
`options` list and `_subs` mapping). `choicesInternal` is the `_choices`
attribute, assigned only on the autocomplete path (`none` = never assigned).
The `autocompleter` attribute always holds the default `_autocomplete` in
this model. -/
structure POptCore where
  cname : Option String
  ctype : Nat
  level : Nat
  param : String
  callback : Option Nat
  description : String
  nameLoc : Tri (List (String × String))
  descLoc : Tri (List (String × String))
  required : Tri Bool
  choices : Tri (List PyVal)
  choicesInternal : Option (List CommandChoice)
  channelTypes : Tri (List Nat)
  minValue : Tri Int
  maxValue : Tri Int
  autocomplete : Tri Bool

mutual
/-- An `Option` object: scalar fields, the `options` list, the `_subs`
mapping. `_subs` keys are the raw `name` arguments passed to `.command`
(possibly `MISSING`, hence `Option String`), exactly as the source indexes
`self._subs[name]`. -/
inductive POpt where
  | mk (core : POptCore) (options : POptList) (subs : SubList)
inductive POptList where
  | nil
  | cons (o : POpt) (t : POptList)
inductive SubList where
  | nil
  | cons (k : Option String) (v : POpt) (t : SubList)
end

def POpt.core : POpt → POptCore
  | .mk c _ _ => c

def POpt.options : POpt → POptList
  | .mk _ o _ => o

def POpt.subs : POpt → SubList
  | .mk _ _ s => s

def POpt.level (o : POpt) : Nat := o.core.level

def POpt.ctype (o : POpt) : Nat := o.core.ctype

def POpt.cname (o : POpt) : Option String := o.core.cname

def POpt.param (o : POpt) : String := o.core.param

def POpt.callback (o : POpt) : Option Nat := o.core.callback

def POpt.choices (o : POpt) : Tri (List PyVal) := o.core.choices

def POpt.choicesInternal (o : POpt) : Option (List CommandChoice) :=
  o.core.choicesInternal

def POpt.withCore (o : POpt) (f : POptCore → POptCore) : POpt :=
  match o with
  | .mk c os ss => .mk (f c) os ss

def POptList.append : POptList → POptList → POptList
  | .nil, l => l
  | .cons o t, l => .cons o (POptList.append t l)

/-- Python `self._subs[name] = command`: replace in place or append. -/
def SubList.dinsertS : SubList → Option String → POpt → SubList
  | .nil, k, v => .cons k v .nil
  | .cons k0 v0 t, k, v =>
      if k = k0 then .cons k v t else .cons k0 v0 (SubList.dinsertS t k v)

/-- Lookup in a `_subs` mapping, `KeyError` on a miss. -/
def SubList.lookupS : SubList → Option String → Option POpt
  | .nil, _ => none
  | .cons k0 v0 t, k => if k = k0 then some v0 else SubList.lookupS t k

/-- Python truthiness of a `bool | MissingEnum` value: only `True` is truthy
(`MISSING` and `None` are falsy). -/
def Tri.truthy : Tri Bool → Bool
  | .val true => true
  | _ => false

/-- Python truthiness of a `list | MissingEnum` value: only a non-empty list
is truthy. -/
def triListTruthy {α : Type} : Tri (List α) → Bool
  | .val (_ :: _) => true
  | _ => false

/-- The list a truthy `choices` argument contributes, else the empty list
(`self._choices = [choice for choice in choices if choices]` when truthy,
`[]` otherwise). -/
def triListOr {α : Type} : Tri (List α) → List α
  | .val l => l
  | _ => []

/-- Python `a or b` for an optional string: `None` and `""` are falsy. -/
def pyOrStr (a : Option String) (b : String) : String :=
  match a with
  | some s => if s = "" then b else s
  | none => b

/-- Python `a or b or c` chain for the description fallback. -/
def pyOrStr2 (a : Option String) (b : Option String) (c : String) : String :=
  match a with
  | some s => if s = "" then pyOrStr b c else s
  | none => pyOrStr b c

/-- A user-supplied async callback: identity, `__name__`, `__doc__`. -/
structure Func where
  id : Nat
  fname : String
  doc : Option String
deriving DecidableEq

/-- Tri-state serialization of one field value. -/
def triEnc {α : Type} : Tri α → (α → PyVal) → PyVal
  | .missing, _ => .vmissing
  | .null, _ => .vnull
  | .val a, f => f a

/-- Serialization of `str | None`. -/
def encOptStr : Option String → PyVal
  | none => .vnull
  | some s => .vstr s

/-- `Option.__init__`. Arguments appear in source order; `options = none`
models the `MISSING` default. The body resolves the wire type through
`_OPTION_BIND` when a native type is given, applies the description fallback,
and splits `choices` by the autocomplete flag: a truthy flag publishes an
empty `choices` list and keeps the raw objects in `_choices`; otherwise the
truthy `choices` are serialized eagerly via `CommandChoice._to_dict` (which
raises `AttributeError` for a choice whose `value` attribute is unset) and a
falsy `choices` leaves the field `MISSING`. `_param` and `_callback` start
unassigned (empty / none); `_level` is the class default 0; `_subs` starts
empty. -/
def optionInit (name : Option String) (description : Option String)
    (type : OptTypeArg) (name_localizations : Tri (List (String × String)))
    (description_localizations : Tri (List (String × String)))
    (required : Tri Bool) (choices : Tri (List CommandChoice))
    (options : Option POptList) (channel_types : Tri (List Nat))
    (min_value : Tri Int) (max_value : Tri Int) (autocomplete : Tri Bool) :
    Except PyErr POpt := do
  let ctype := match type with
    | .enumT n => n
    | .pyType k => optionBind k
    | .rawInt n => n
  let descriptionS := pyOrStr description "No description provided"
  let pair ←
    if autocomplete.truthy then
      pure (Tri.val ([] : List PyVal), some (triListOr choices))
    else
      if triListTruthy choices then do
        let ds ← (triListOr choices).mapM choiceToDictE
        pure (Tri.val ds, (none : Option (List CommandChoice)))
      else
        pure ((Tri.missing : Tri (List PyVal)), (none : Option (List CommandChoice)))
  let optionsL := match options with
    | none => POptList.nil
    | some l => l
  pure (POpt.mk
    { cname := name, ctype := ctype, level := 0, param := "", callback := none,
      description := descriptionS, nameLoc := name_localizations,
      descLoc := description_localizations, required := required,
      choices := pair.1, choicesInternal := pair.2,
      channelTypes := channel_types, minValue := min_value,
      maxValue := max_value, autocomplete := autocomplete }
    optionsL SubList.nil)

mutual
/-- The keyword list `Option.to_dict` hands to `remove_undefined`, in source
order. After `__init__` the `options` attribute is always a list (never
`MISSING`), so its `is not MISSING` guard is taken and the children are
serialized recursively. -/
def optionEntries : POpt → List (String × PyVal)
  | .mk c opts _ =>
      [("type", .vint c.ctype),
       ("name", encOptStr c.cname),
       ("name_localizations", triEnc c.nameLoc encLoc),
       ("description", .vstr c.description),
       ("description_localizations", triEnc c.descLoc encLoc),
       ("required", triEnc c.required (fun b => .vbool b)),
       ("choices", triEnc c.choices (fun l => .vlist l)),
       ("options", .vlist (toDictList opts)),
       ("channel_types", triEnc c.channelTypes
          (fun l => .vlist (l.map (fun n => .vint n)))),
       ("min_value", triEnc c.minValue (fun n => .vint n)),
       ("max_value", triEnc c.maxValue (fun n => .vint n)),
       ("autocomplete", triEnc c.autocomplete (fun b => .vbool b))]
def toDictList : POptList → List PyVal
  | .nil => []
  | .cons o t => PyVal.vdict (remove_undefined (optionEntries o)) :: toDictList t
end

/-- The entry list of the dictionary `Option.to_dict` returns. -/
def toDictPairs (o : POpt) : List (String × PyVal) :=
  remove_undefined (optionEntries o)

/-- `Option.to_dict`: the keyword entries filtered by `remove_undefined`. -/
def toDict (o : POpt) : PyVal :=
  .vdict (toDictPairs o)

/-- `Option.command` applied to `func` (the decorator body `wrapper`):
construct the child sub-command `Option` (type 1), assign its `_callback`,
raise `ApplicationCommandException` when this option's `_level` is already 2,
set the child's `_level`, reset `options`/`_callback` on the first attached
sub-command, append the child, record it in `_subs` under the raw `name`
argument, and turn a type-1 option into a command group (type 2). Python
mutates `self` in place; the model returns the updated parent together with
the child. -/
def optionCommand (self : POpt) (name : Option String)
    (description : Option String)
    (name_localizations : Tri (List (String × String)))
    (description_localizations : Tri (List (String × String)))
    (f : Func) : Except PyErr (POpt × POpt) := do
  let command ← optionInit (some (pyOrStr name (strLower f.fname)))
      (some (pyOrStr2 description f.doc "No description provided"))
      (.enumT 1) name_localizations description_localizations
      .missing .missing none .missing .missing .missing .missing
  let command := command.withCore (fun c => { c with callback := some f.id })
  if self.level == 2 then
    .error (.appCommandException "Sub commands cannot be three levels deep")
  else
    let command := command.withCore (fun c => { c with level := self.level + 1 })
    let self1 := match self.subs with
      | SubList.nil => POpt.mk { self.core with callback := none } POptList.nil self.subs
      | _ => self
    let self2 := POpt.mk self1.core
      (self1.options.append (.cons command .nil))
      (self1.subs.dinsertS name command)
    let self3 := if self2.ctype == 1 then
        self2.withCore (fun c => { c with ctype := 2 })
      else self2
    pure (self3, command)

/-! ## ApplicationCommand declaration
(class ApplicationCommand of pycord/commands/application/command.py) -/

/-- The mutable state of an `ApplicationCommand` instance used by
declaration, synchronization and decoding: `name`, wire `type`, `_callback`
(None-able), `options`, `_options_dict`, the serialized `_options` snapshot,
`_subs`, the `_created` flag and the remote `id`. Like `_subs` on `Option`,
`_options_dict`/`_subs` keys are the raw `name` arguments used at the
assignments, hence `Option String`. -/
structure AppCommand where
  name : String
  ctype : Nat
  callback : Option Nat
  description : Tri String
  options : POptList
  optionsDict : List (Option String × POpt)
  optionsSer : List PyVal
  subs : List (Option String × POpt)
  created : Bool
  cmdId : Option Nat

/-- One callback parameter as `_parse_arguments` sees it after skipping
`self` and the `Interaction`/`Context` parameter: its name, the wire type
derived from its annotation through `_OPTION_BIND`, and the `Option` default
value. -/
structure ParsedParam where
  pname : String
  bindKey : BindKey
  opt : POpt

/-- The per-parameter mutation of `_parse_arguments`: record the parameter
name in `_param`, overwrite `type` from the annotation via `_OPTION_BIND`,
and default a falsy `name` to the parameter name. -/
def parseOne (p : ParsedParam) : POpt :=
  p.opt.withCore (fun c =>
    { c with
      param := p.pname, ctype := optionBind p.bindKey,
      cname := some (pyOrStr c.cname p.pname) })

/-- `_parse_arguments` for a chat-input command: fold the parameter list into
`options`, `_options_dict` (keyed by each option's resolved name) and the
serialized `_options` list. -/
def parseArguments (params : List ParsedParam) :
    POptList × List (Option String × POpt) × List PyVal :=
  match params with
  | [] => (POptList.nil, [], [])
  | p :: rest =>
      let o := parseOne p
      let (os, dict, ser) := parseArguments rest
      (POptList.cons o os, (o.cname, o) :: dict, toDict o :: ser)

/-- `ApplicationCommand.__init__` for a chat-input command (`type` 1): store
the callback, resolve the name from the callback's `__name__`, apply the
description fallback through the callback's `__doc__`, run
`_parse_arguments`, and start with empty `_subs` and a cleared `_created`
flag. -/
def appCommandInit (callback : Func) (name : Option String)
    (description : Option String) (params : List ParsedParam) : AppCommand :=
  let (os, dict, ser) := parseArguments params
  { name := pyOrStr name (strLower callback.fname),
    ctype := 1,
    callback := some callback.id,
    description := .val (pyOrStr2 description callback.doc "No description provided"),
    options := os,
    optionsDict := dict,
    optionsSer := ser,
    subs := [],
    created := false,
    cmdId := none }

/-- `ApplicationCommand.command` applied to `func` (the decorator body
`wrapper`): reject non-slash commands, build the child sub-command `Option`
(type 1, `_level` 1) with its callback, on the first attached sub-command
clear `options`/`_options_dict`/`_options` and null out `_callback`, then
append the child and record it in `_options_dict` and `_subs` under the raw
`name` argument (the decorator argument, not the resolved child name). The
serialized `_options` receives a `to_dict` snapshot of the child. -/
def appCommandCommand (self : AppCommand) (name : Option String)
    (description : Option String)
    (name_localizations : Tri (List (String × String)))
    (description_localizations : Tri (List (String × String)))
    (f : Func) : Except PyErr (AppCommand × POpt) := do
  if self.ctype != 1 then
    .error (.appCommandException "Sub Commands cannot be created on non-slash-commands")
  else
    let command ← optionInit (some (pyOrStr name (strLower f.fname)))
        (some (pyOrStr2 description f.doc "No description provided"))
        (.enumT 1) name_localizations description_localizations
        .missing .missing none .missing .missing .missing .missing
    let command := command.withCore (fun c =>
      { c with callback := some f.id, level := 1 })
    let self := match self.subs with
      | [] => { self with
          options := POptList.nil, optionsDict := [],
          optionsSer := [], callback := none }
      | _ => self
    let self := { self with
      options := self.options.append (.cons command .nil),
      optionsDict := dinsert self.optionsDict name command,
      optionsSer := self.optionsSer ++ [toDict command],
      subs := dinsert self.subs name command }
    pure (self, command)

/-! ## Interaction option decoder
(`ApplicationCommand._process_options`) -/

/-- The resolved-entity maps of an interaction payload, keyed by the id
carried in the referencing option node's `value`. A map that is absent from
the payload behaves like an empty one: both are falsy under
`resolved.get('roles')` and both make any direct `resolved[...][id]` access
raise. Channel payloads keep the structure the discriminator reads; the
other entities stay opaque payloads. -/
structure Resolved where
  users : List (ScalarVal × PyVal)
  members : List (ScalarVal × PyVal)
  roles : List (ScalarVal × PyVal)
  channels : List (ScalarVal × ChannelData)
  attachments : List (ScalarVal × PyVal)

/-- The interaction fields `_process_options` reads: the guild id (absent
outside guilds) and the resolved maps. -/
structure InterCtx where
  guildId : Option String
  resolved : Resolved

/-- A value bound into the argument mapping. `member` records the resolved
member payload, the user attached onto it (`member.user = user`), and the
`guild_id` argument passed to the `Member` constructor (the type-6 branch
passes the interaction's guild id; the type-9 branch passes none). -/
inductive BoundVal where
  | scalar (v : ScalarVal)
  | user (payload : PyVal)
  | member (payload : PyVal) (userPayload : PyVal) (guildIdArg : Option String)
  | role (payload : PyVal)
  | channelV (c : ChannelVariant)
  | attachment (payload : PyVal)

/-- One awaited callback invocation: the callback id and the keyword
arguments splatted into it. -/
structure CallEvent where
  cb : Nat
  args : List (String × BoundVal)

mutual
/-- A received `InteractionOption` node: `name`, wire `type`, scalar
`value`, child nodes, `focused` flag. -/
inductive InterOption where
  | mk (name : String) (otype : Nat) (value : ScalarVal)
      (options : InterOptions) (focused : Bool)
inductive InterOptions where
  | nil
  | cons (o : InterOption) (t : InterOptions)
end

def InterOption.name : InterOption → String
  | .mk n _ _ _ _ => n

def InterOption.otype : InterOption → Nat
  | .mk _ t _ _ _ => t

def InterOption.value : InterOption → ScalarVal
  | .mk _ _ v _ _ => v

def InterOption.options : InterOption → InterOptions
  | .mk _ _ _ o _ => o

def InterOptions.toList : InterOptions → List InterOption
  | .nil => []
  | .cons o t => o :: InterOptions.toList t

/-- Awaiting `self._callback(interaction)` when `_callback` is `None` raises
`TypeError: 'NoneType' object is not callable`. -/
def expectCallback : Option Nat → Except PyErr Nat
  | some cb => .ok cb
  | none => .error .typeErrorNoneCall

/-- `ApplicationCommand._process_options`, node for node. For each received
node the declared option is fetched from `self._options_dict[option.name]`
(KeyError on a miss). Type 1 resolves `self._subs[option.name]`, recurses
into the children with the `grouped` default (False), awaits the parent
`_callback` unless `grouped`, then awaits the sub-command's `_callback` with
the recursive binding. Type 2 awaits the parent `_callback` and recurses
with `grouped=True`, discarding the recursive binding. Scalar types 3, 4, 5
and 10 bind the node's raw value under the declared `_param`. Types 6-9 and
11 resolve through the interaction's resolved maps exactly as the source
branches do. Any other type falls through every branch and binds nothing.
The result pairs the ordered callback invocations with the binding.

The per-node dispatch is `processNode`, the loop body after the
`self._options_dict` lookup. `innerFalse` and `innerTrue` are the recursive
decodes of the node's children with `grouped` defaulted (type 1) and
`grouped=True` (type 2); only the branch the node's type selects is
consulted; `processList` below drives the loop and the recursion. -/
def processNode (cmd : AppCommand) (inter : InterCtx) (grouped : Bool)
    (nm : String) (ty : Nat) (v : ScalarVal) (o : POpt)
    (innerFalse innerTrue : Except PyErr (List CallEvent × List (String × BoundVal))) :
    Except PyErr (List CallEvent × List (String × BoundVal)) :=
  if ty == 1 then do
    let sub ← lookupE cmd.subs (some nm) nm
    let inner ← innerFalse
    let parentEvs ←
      if !grouped then do
        let cb ← expectCallback cmd.callback
        pure [CallEvent.mk cb []]
      else
        pure ([] : List CallEvent)
    let subCb ← expectCallback sub.callback
    Except.ok (inner.1 ++ parentEvs ++ [CallEvent.mk subCb inner.2],
      ([] : List (String × BoundVal)))
  else if ty == 2 then do
    let cb ← expectCallback cmd.callback
    let inner ← innerTrue
    Except.ok (CallEvent.mk cb [] :: inner.1, ([] : List (String × BoundVal)))
  else if ty == 3 || ty == 4 || ty == 5 || ty == 10 then
    Except.ok ([], [(o.param, BoundVal.scalar v)])
  else if ty == 6 then do
    let u ← lookupE inter.resolved.users v (pyStr v)
    match inter.guildId with
    | some g => do
        let m ← lookupE inter.resolved.members v (pyStr v)
        Except.ok ([], [(o.param, BoundVal.member m u (some g))])
    | none => Except.ok ([], [(o.param, BoundVal.user u)])
  else if ty == 7 then do
    let cd ← lookupE inter.resolved.channels v (pyStr v)
    Except.ok ([], [(o.param, BoundVal.channelV (identify_channel cd))])
  else if ty == 8 then do
    let r ← lookupE inter.resolved.roles v (pyStr v)
    Except.ok ([], [(o.param, BoundVal.role r)])
  else if ty == 9 then
    if !inter.resolved.roles.isEmpty then do
      let r ← lookupE inter.resolved.roles v (pyStr v)
      Except.ok ([], [(o.param, BoundVal.role r)])
    else do
      let u ← lookupE inter.resolved.users v (pyStr v)
      match inter.guildId with
      | some _g => do
          let m ← lookupE inter.resolved.members v (pyStr v)
          Except.ok ([], [(o.param, BoundVal.member m u none)])
      | none => Except.ok ([], [(o.param, BoundVal.user u)])
  else if ty == 11 then do
    let a ← lookupE inter.resolved.attachments v (pyStr v)
    Except.ok ([], [(o.param, BoundVal.attachment a)])
  else
    Except.ok ([], [])

def processList (cmd : AppCommand) (inter : InterCtx) :
    Bool → InterOptions → Except PyErr (List CallEvent × List (String × BoundVal))
  | _, .nil => .ok ([], [])
  | grouped, .cons (InterOption.mk nm ty v opts _foc) rest => do
      let o ← lookupE cmd.optionsDict (some nm) nm
      let step ← processNode cmd inter grouped nm ty v o
        (processList cmd inter false opts) (processList cmd inter true opts)
      let tail ← processList cmd inter grouped rest
      .ok (step.1 ++ tail.1, step.2 ++ tail.2)

/-- Which received nodes reference an id that is missing from the resolved
map their wire type is resolved through, following the branches of
`_process_options`: type 6 uses `resolved.users` (and `resolved.members`
when a guild id is present), 7 `resolved.channels`, 8 `resolved.roles`, 9
`resolved.roles` when that map is truthy and the user/member pair otherwise,
11 `resolved.attachments`. Other types perform no resolved lookup. -/
def resolvedMiss (inter : InterCtx) (ty : Nat) (v : ScalarVal) : Bool :=
  let userMemberMiss :=
    (alookup inter.resolved.users v).isNone
    || ((alookup inter.resolved.users v).isSome && inter.guildId.isSome
        && (alookup inter.resolved.members v).isNone)
  if ty == 6 then userMemberMiss
  else if ty == 7 then (alookup inter.resolved.channels v).isNone
  else if ty == 8 then (alookup inter.resolved.roles v).isNone
  else if ty == 9 then
    if !inter.resolved.roles.isEmpty then (alookup inter.resolved.roles v).isNone
    else userMemberMiss
  else if ty == 11 then (alookup inter.resolved.attachments v).isNone
  else false

/-! ## Autocomplete dispatch (`ApplicationCommand._invoke`, type-4 branch) -/

/-- A raw option entry of an autocomplete interaction's `data['options']`
list: `{'name': ..., 'value': ..., 'focused': ...}`. -/
structure AcNode where
  name : String
  value : String
  focused : Bool
deriving DecidableEq

/-- The `data` mapping of an autocomplete interaction: `data.get('name')`
and `data['options']`. -/
structure AcData where
  dataName : Option String
  options : List AcNode
deriving DecidableEq

/-- Modelled from the spec: the platform's maximum autocomplete choice count
(the Discord limit of 25 choices per response); the constant appears nowhere
under src/. -/
def platformMaxChoices : Nat := 25

/-- The type-4 (autocomplete) branch of `ApplicationCommand._invoke`: when
`data.get('name')` matches this command's name, take `data['options'][0]`
(IndexError when empty — the focused flag is never consulted), fetch the
declared option from `self._options_dict`, and run its completer on the
node's `value`. The completer is the default `_autocomplete` registration,
which filters the option's `_choices` (`AttributeError` when that attribute
was never assigned). The choice dictionaries handed to
`interaction.response.autocomplete` are returned; `none` means the branch
fell through without invoking a completer. -/
def invokeAutocomplete (cmd : AppCommand) (data : AcData) :
    Except PyErr (Option (List PyVal)) :=
  match data.dataName with
  | none => .ok none
  | some n =>
      if n = cmd.name then
        match data.options with
        | [] => .error .indexError
        | o :: _ => do
            let realOption ← lookupE cmd.optionsDict (some o.name) o.name
            let cs ← match realOption.choicesInternal with
              | none => Except.error PyErr.attributeError
              | some cs => Except.ok cs
            let choices ← pyAutocomplete cs o.value
            pure (some choices)
      else .ok none

/-! ## Remote command synchronization
(`ApplicationCommand.instantiate`, guild branch) -/

/-- A remote application command as the HTTP routers report and store it:
id, name and wire type (the payload fields the synchronization algorithm
matches on). -/
structure RemoteCmd where
  id : Nat
  name : String
  rtype : Nat
deriving DecidableEq

/-- The state context `instantiate` consults: the registration-update policy
flag (`state.update_commands`) and the locally-declared command names
(`state._application_command_names`). -/
structure BotState where
  updateCommands : Bool
  names : List String
deriving DecidableEq

/-- HTTP `delete_guild_application_command`. -/
def deleteRemote (remote : List RemoteCmd) (id : Nat) : List RemoteCmd :=
  remote.filter (fun rc => rc.id != id)

/-- HTTP `edit_guild_application_command`: PATCH the command's name and type
to the local declaration (the other edited fields do not enter the
name/type matching this model observes). -/
def editRemote (remote : List RemoteCmd) (id : Nat) (self : AppCommand) :
    List RemoteCmd :=
  remote.map (fun rc =>
    if rc.id == id then { rc with name := self.name, rtype := self.ctype } else rc)

/-- The `for app_cmd in guild_commands` loop of the guild branch of
`instantiate`: iterate over the fetched snapshot while mutating `self` and
the remote registry through the HTTP calls. Stale names are deleted; a
name match under an enabled update policy skips on a type mismatch, deletes
the remote command when `_created` is already set (then continues), and
otherwise records the id, edits the remote command in place and sets
`_created`. -/
def instGuildLoop (bot : BotState) :
    List RemoteCmd → AppCommand × List RemoteCmd → AppCommand × List RemoteCmd
  | [], st => st
  | app :: rest, (self, remote) =>
      if !(bot.names.contains app.name) then
        instGuildLoop bot rest (self, deleteRemote remote app.id)
      else if app.name == self.name && bot.updateCommands then
        if app.rtype != self.ctype then
          instGuildLoop bot rest (self, remote)
        else if self.created then
          instGuildLoop bot rest (self, deleteRemote remote app.id)
        else
          let self := { self with cmdId := some app.id }
          let remote := editRemote remote app.id self
          instGuildLoop bot rest ({ self with created := true }, remote)
      else
        instGuildLoop bot rest (self, remote)

/-- The guild branch of `ApplicationCommand.instantiate`: fetch the remote
snapshot, run the loop, and create the command afterwards when `_created`
is still clear (the creation response id becomes `self.id`; note the source
does not set `_created` after a create). `freshId` is the id the platform
assigns to a newly created command. -/
def instantiateGuild (bot : BotState) (self : AppCommand)
    (remote : List RemoteCmd) (freshId : Nat) : AppCommand × List RemoteCmd :=
  let st := instGuildLoop bot remote (self, remote)
  if !st.1.created then
    ({ st.1 with cmdId := some freshId },
      st.2 ++ [{ id := freshId, name := st.1.name, rtype := st.1.ctype }])
  else st

/-- Remote commands matching a local (name, type) pair. -/
def remoteCount (remote : List RemoteCmd) (name : String) (ty : Nat) : Nat :=
  (remote.filter (fun rc => rc.name == name && rc.rtype == ty)).length

/-! ## Interaction response guard (pycord/interaction.py) -/

/-- The observable state of an `InteractionResponse`: the `responded` flag
and the number of `create_interaction_response` HTTP calls issued so far
(the latter models the external transport's view). -/
structure RespState where
  responded : Bool
  httpCalls : Nat
deriving DecidableEq

/-- A fresh `InteractionResponse` (`__init__`): `responded = False`. -/
def respInit : RespState :=
  { responded := false, httpCalls := 0 }

/-- `InteractionResponse.send`: raise `InteractionException` without any
HTTP call when `responded` is already set; otherwise issue the HTTP call and
then set `responded`. -/
def sendResp (st : RespState) : Except PyErr Unit × RespState :=
  if st.responded then
    (.error (.interactionException "This interaction has already been responded to"), st)
  else
    (.ok (), { responded := true, httpCalls := st.httpCalls + 1 })

/-- `n` successive `send` attempts on the same response object. -/
def sendN : Nat → RespState → RespState
  | 0, st => st
  | n + 1, st => sendN n (sendResp st).2

/-! ## Concrete scenarios used by the theorems below -/

/-- What the claims state about a serialized tri-state field with key `k`:
an unset field's key is absent, an explicit-null field serializes as null, a
present field serializes as its encoded value. -/
def triFieldOk {α : Type} (pairs : List (String × PyVal)) (k : String)
    (t : Tri α) (enc : α → PyVal) : Prop :=
  (t = .missing → ∀ v, (k, v) ∉ pairs)
  ∧ (t = .null → (k, PyVal.vnull) ∈ pairs)
  ∧ (∀ a, t = .val a → (k, enc a) ∈ pairs)

/-- The callback of a top-level command with no extra parameters. -/
def topFunc : Func := ⟨0, "top", none⟩

/-- The callback declared for the sub-command group. -/
def groupFunc : Func := ⟨1, "g", none⟩

/-- The callback declared for the nested sub-command. -/
def subFunc : Func := ⟨2, "s", none⟩

/-- The command `top` as declared: a chat-input command over a parameterless
callback. -/
def c2Base : AppCommand := appCommandInit topFunc (some "top") none []

/-- An interaction context with no guild and empty resolved maps (the
scenario's leaves are scalars and need none). -/
def c2Inter : InterCtx := ⟨none, ⟨[], [], [], [], []⟩⟩

/-- The received option tree of the scenario: one sub-command-group node
`g` (wire type 2) containing one sub-command node `s` (wire type 1) with two
scalar leaves `a` (string) and `b` (integer). -/
def c2Wire : InterOptions :=
  .cons (InterOption.mk "g" 2 (.s "")
    (.cons (InterOption.mk "s" 1 (.s "")
      (.cons (InterOption.mk "a" 3 (.s "x") .nil false)
        (.cons (InterOption.mk "b" 4 (.i 5) .nil false) .nil)) false) .nil) false) .nil

/-- Declare `top`, attach sub-command `g` (making `top._callback` None),
attach sub-command `s` to `g` (making it a type-2 group), write the mutated
`g` back into the containers that alias it in Python, then decode the
scenario's option tree. The outer layer reports declaration errors, the
inner layer the decoder's outcome. -/
def c2Pipeline : Except PyErr (Except PyErr (List CallEvent × List (String × BoundVal))) := do
  let r1 ← appCommandCommand c2Base (some "g") none .missing .missing groupFunc
  let r2 ← optionCommand r1.2 (some "s") none .missing .missing subFunc
  let cmd := { r1.1 with
    options := POptList.cons r2.1 .nil,
    optionsDict := dinsert r1.1.optionsDict (some "g") r2.1,
    subs := dinsert r1.1.subs (some "g") r2.1 }
  pure (processList cmd c2Inter false c2Wire)

/-- Declaring two levels of sub-commands: `top`, then `g` on it, then `s`
on `g`; the result carries the final parent and the level-2 child. -/
def c4Chain : Except PyErr (POpt × POpt) := do
  let r1 ← appCommandCommand (appCommandInit topFunc (some "top") none [])
      (some "g") none .missing .missing groupFunc
  optionCommand r1.2 (some "s") none .missing .missing subFunc

/-- The bot state for the synchronization scenario: update policy enabled,
the local declaration set containing the command's name. -/
def c3Bot : BotState := ⟨true, ["ping"]⟩

/-- A guild chat-input command `ping`, not yet synchronized. -/
def c3Local : AppCommand :=
  { name := "ping", ctype := 1, callback := some 0, description := .val "d",
    options := .nil, optionsDict := [], optionsSer := [], subs := [],
    created := false, cmdId := none }

/-- The remote registry before synchronization: exactly one pre-existing
command matching the local (name, type) pair, as after a previous run. -/
def c3Remote : List RemoteCmd := [⟨7, "ping", 1⟩]

/-- The first `instantiate()` call. -/
def c3Once : AppCommand × List RemoteCmd := instantiateGuild c3Bot c3Local c3Remote 100

/-- The second `instantiate()` call on the unchanged declaration. -/
def c3Twice : AppCommand × List RemoteCmd := instantiateGuild c3Bot c3Once.1 c3Once.2 101

/-- The declared mentionable option bound to parameter `x`. -/
def c5Opt : POpt :=
  POpt.mk
    { cname := some "men", ctype := 9, level := 0, param := "x",
      callback := none, description := "d", nameLoc := .missing,
      descLoc := .missing, required := .missing, choices := .missing,
      choicesInternal := none, channelTypes := .missing, minValue := .missing,
      maxValue := .missing, autocomplete := .missing }
    .nil .nil

/-- A command declaring the single mentionable option `men`. -/
def c5Cmd : AppCommand :=
  { name := "m", ctype := 1, callback := some 0, description := .missing,
    options := .cons c5Opt .nil, optionsDict := [(some "men", c5Opt)],
    optionsSer := [], subs := [], created := false, cmdId := none }

/-- The received mentionable node referencing id "5". -/
def c5Node : InterOption := .mk "men" 9 (.s "5") .nil false

/-- Guild interaction whose resolved maps carry a role, a user and a member
for the same id "5": the role must win. -/
def c5InterRoles : InterCtx :=
  ⟨some "gld",
    ⟨[(.s "5", .vstr "user5")], [(.s "5", .vstr "member5")],
      [(.s "5", .vstr "role5")], [], []⟩⟩

/-- Guild interaction with no resolved roles: the member path must be
taken. -/
def c5InterMember : InterCtx :=
  ⟨some "gld",
    ⟨[(.s "5", .vstr "user5")], [(.s "5", .vstr "member5")], [], [], []⟩⟩

/-- Guildless interaction with no resolved roles: the bare-user path must be
taken. -/
def c5InterUser : InterCtx :=
  ⟨none, ⟨[(.s "5", .vstr "user5")], [], [], [], []⟩⟩

/-- A mixed-field option exercising all three tri-states at once. -/
def c6Opt : POpt :=
  POpt.mk
    { cname := some "o", ctype := 3, level := 0, param := "o",
      callback := none, description := "d", nameLoc := .missing,
      descLoc := .null, required := .val true, choices := .missing,
      choicesInternal := none, channelTypes := .missing, minValue := .val 3,
      maxValue := .missing, autocomplete := .missing }
    .nil .nil

/-- A choice whose `value` attribute is assigned (constructed with
`value=None`, so `value == name == "a"`). -/
def c7Choice : CommandChoice := commandChoiceInit "a" none none

/-- An autocomplete-enabled string option with 26 registered choices that
all match the partial input "a". -/
def c7Opt : POpt :=
  POpt.mk
    { cname := some "q", ctype := 3, level := 0, param := "q",
      callback := none, description := "d", nameLoc := .missing,
      descLoc := .missing, required := .missing, choices := .val [],
      choicesInternal := some (List.replicate 26 c7Choice),
      channelTypes := .missing, minValue := .missing, maxValue := .missing,
      autocomplete := .val true }
    .nil .nil

/-- The command `ac` declaring option `q`. -/
def c7Cmd : AppCommand :=
  { name := "ac", ctype := 1, callback := some 0, description := .missing,
    options := .cons c7Opt .nil, optionsDict := [(some "q", c7Opt)],
    optionsSer := [], subs := [], created := false, cmdId := none }

/-- The autocomplete interaction data naming `ac`, focused on `q` with
partial input "a". -/
def c7Data : AcData := ⟨some "ac", [⟨"q", "a", true⟩]⟩

/-- The number of choices an autocomplete invocation would send back, when
one was produced. -/
def acResultLen : Except PyErr (Option (List PyVal)) → Option Nat
  | .ok (some l) => some l.length
  | _ => none

/-- A choice named and valued "b" with its `value` attribute assigned. -/
def c7ChoiceB : CommandChoice := commandChoiceInit "b" none none

/-- An autocomplete option `q1` whose single registered choice "a" does not
match the partial input "b". -/
def c7OptQ1 : POpt :=
  POpt.mk
    { cname := some "q1", ctype := 3, level := 0, param := "q1",
      callback := none, description := "d", nameLoc := .missing,
      descLoc := .missing, required := .missing, choices := .val [],
      choicesInternal := some [c7Choice], channelTypes := .missing,
      minValue := .missing, maxValue := .missing, autocomplete := .val true }
    .nil .nil

/-- An autocomplete option `q2` whose single registered choice "b" matches
the partial input "b". -/
def c7OptQ2 : POpt :=
  POpt.mk
    { cname := some "q2", ctype := 3, level := 0, param := "q2",
      callback := none, description := "d", nameLoc := .missing,
      descLoc := .missing, required := .missing, choices := .val [],
      choicesInternal := some [c7ChoiceB], channelTypes := .missing,
      minValue := .missing, maxValue := .missing, autocomplete := .val true }
    .nil .nil

/-- The command `ac2` declaring the two autocomplete options `q1` and
`q2`. -/
def c7Cmd2 : AppCommand :=
  { name := "ac2", ctype := 1, callback := some 0, description := .missing,
    options := .cons c7OptQ1 (.cons c7OptQ2 .nil),
    optionsDict := [(some "q1", c7OptQ1), (some "q2", c7OptQ2)],
    optionsSer := [], subs := [], created := false, cmdId := none }

/-- Autocomplete interaction data naming `ac2` whose FOCUSED option `q2` is
listed second, after the unfocused `q1`; both nodes carry the partial input
"b". -/
def c7Data2 : AcData :=
  ⟨some "ac2", [⟨"q1", "b", false⟩, ⟨"q2", "b", true⟩]⟩

/-- A declared option for the missing-resolved-entity scenarios. -/
def c8Opt : POpt :=
  POpt.mk
    { cname := some "e", ctype := 6, level := 0, param := "y",
      callback := none, description := "d", nameLoc := .missing,
      descLoc := .missing, required := .missing, choices := .missing,
      choicesInternal := none, channelTypes := .missing, minValue := .missing,
      maxValue := .missing, autocomplete := .missing }
    .nil .nil

/-- A command declaring the single option `e`. -/
def c8Cmd : AppCommand :=
  { name := "r", ctype := 1, callback := some 0, description := .missing,
    options := .cons c8Opt .nil, optionsDict := [(some "e", c8Opt)],
    optionsSer := [], subs := [], created := false, cmdId := none }

/-- A guild interaction whose resolved maps are all empty: every resolved
lookup misses. -/
def c8Inter : InterCtx := ⟨some "gld", ⟨[], [], [], [], []⟩⟩

/-- A sub-command option already at nesting level 2. -/
def c4Opt2 : POpt :=
  POpt.mk
    { cname := some "s", ctype := 1, level := 2, param := "",
      callback := some 2, description := "d", nameLoc := .missing,
      descLoc := .missing, required := .missing, choices := .missing,
      choicesInternal := none, channelTypes := .missing, minValue := .missing,
      maxValue := .missing, autocomplete := .missing }
    .nil .nil

/-- A sub-command option at nesting level 1. -/
def c4Opt1 : POpt :=
  POpt.mk
    { cname := some "g", ctype := 1, level := 1, param := "",
      callback := some 1, description := "d", nameLoc := .missing,
      descLoc := .missing, required := .missing, choices := .missing,
      choicesInternal := none, channelTypes := .missing, minValue := .missing,
      maxValue := .missing, autocomplete := .missing }
    .nil .nil

/-- Whether an operation succeeded. -/
def isOkE {ε α : Type} : Except ε α → Bool
  | .ok _ => true
  | .error _ => false

/-! ## Helper lemmas -/

theorem mem_remove_undefined {l : List (String × PyVal)} {k : String} {v : PyVal} :
    (k, v) ∈ remove_undefined l ↔ (k, v) ∈ l ∧ notMissing v = true := by
  simp [remove_undefined, List.mem_filter]

theorem notMissing_ne {v : PyVal} (h : notMissing v = true) : v ≠ PyVal.vmissing := by
  cases v <;> simp [notMissing] at h ⊢

/-! ## Claim theorems -/

/-- C1: the claim asserts that `identify_channel` maps every documented
discriminant, including GroupDM at code 3, to its documented concrete class.
The code disagrees at the failing input: a payload with type 3 constructs
the base `Channel`, although `GroupDMChannel` is the class the source
documents for code 3. -/
theorem identify_channel_groupdm_divergence :
    (identify_channel ⟨"3001", 3, .missing, .missing⟩).ctor = ChannelCtor.channel
    ∧ documentedChannelVariant 3 = some ChannelCtor.groupDMChannel
    ∧ (ChannelCtor.channel == ChannelCtor.groupDMChannel) = false := by
  refine ⟨rfl, rfl, by decide⟩

/-- C2: the claim asserts that decoding a group/sub-command/two-scalar
interaction invokes the group callback once and the sub-command callback
once with the two scalars bound. On the code, attaching the first
sub-command nulls the parent `_callback`, and the type-2 branch of
`_process_options` awaits that `None`, so the decode raises TypeError before
any callback runs and no binding is produced. -/
theorem process_options_group_scenario_crash :
    c2Pipeline = .ok (.error .typeErrorNoneCall) := rfl

/-- C3: the claim asserts that two `instantiate()` calls with the update
policy enabled leave exactly one remote command per local (name, type). On
the code, starting from one matching pre-existing remote command, the first
call edits it and sets `_created`; the second call then takes the
`_created`-guarded delete branch and never recreates, leaving zero. -/
theorem instantiate_twice_deletes_remote :
    remoteCount c3Remote "ping" 1 = 1
    ∧ remoteCount c3Once.2 "ping" 1 = 1
    ∧ c3Once.1.created = true
    ∧ remoteCount c3Twice.2 "ping" 1 = 0 := by
  refine ⟨rfl, rfl, rfl, rfl⟩

/-- C7 counterexample: the claim fails at two concrete inputs. First, the
cap clause: 26 registered choices all matching the partial input "a" come
back in full, 26 choice dictionaries against a maximum of 25 — nothing
truncates. Second, the focused-option clause: on the payload whose focused
option `q2` is listed second, the invocation consults the FIRST option
`q1` and returns its 0 matches, although the focused option's registered
completer yields 1 match for the same partial input "b" — so the focused
option's completer is not the one invoked. -/
theorem autocomplete_claim_counterexample :
    acResultLen (invokeAutocomplete c7Cmd c7Data) = some 26
    ∧ platformMaxChoices < 26
    ∧ acResultLen (invokeAutocomplete c7Cmd2 c7Data2) = some 0
    ∧ ((pyAutocomplete [c7ChoiceB] "b").map List.length) = .ok 1
    ∧ (0 : Nat) < 1 := by
  refine ⟨rfl, by decide, rfl, rfl, by decide⟩

theorem sendN_stuck (m : Nat) (st : RespState) (h : st.responded = true) :
    sendN m st = st := by
  induction m with
  | zero => rfl
  | succ n ih =>
      simp [sendN, sendResp, h]
      simpa [sendResp, h] using ih

theorem sendN_responded (n : Nat) (h : 1 ≤ n) :
    sendN n respInit = ⟨true, 1⟩ := by
  cases n with
  | zero => omega
  | succ m =>
      have : sendN (m + 1) respInit = sendN m ⟨true, 1⟩ := by
        simp [sendN, sendResp, respInit]
      rw [this, sendN_stuck m ⟨true, 1⟩ rfl]

/-- C9: at most one interaction response is ever sent. A `send` on an
already-responded object raises `InteractionException` and leaves the state
(in particular the HTTP call count) untouched; a successful `send` issues
exactly one HTTP call and sets `responded`; consequently any number of
`send` attempts from a fresh response issues at most one HTTP call, and
every attempt after the first fails. -/
theorem interaction_response_single_send (st : RespState) (n : Nat) :
    (st.responded = true →
      sendResp st = (.error (.interactionException
        "This interaction has already been responded to"), st))
    ∧ (st.responded = false →
        sendResp st = (.ok (), { responded := true, httpCalls := st.httpCalls + 1 }))
    ∧ (sendN n respInit).httpCalls ≤ 1
    ∧ (1 ≤ n →
        (sendResp (sendN n respInit)).1 = .error (.interactionException
          "This interaction has already been responded to")) := by
  refine ⟨fun h => by simp [sendResp, h], fun h => by simp [sendResp, h], ?_, fun h => ?_⟩
  · rcases Nat.eq_zero_or_pos n with h | h
    · simp [h, sendN, respInit]
    · rw [sendN_responded n h]
  · rw [sendN_responded n h]
    simp [sendResp]

/-- C9 witness: a fresh response accepts the first send, a responded one
refuses it, three attempts issue one HTTP call, and the attempt after the
first fails. -/
theorem interaction_response_single_send_witness :
    (sendResp ⟨true, 1⟩ = (.error (.interactionException
      "This interaction has already been responded to"), ⟨true, 1⟩))
    ∧ (sendResp ⟨false, 0⟩ = (.ok (), ⟨true, 1⟩))
    ∧ (sendN 3 respInit).httpCalls ≤ 1
    ∧ (sendResp (sendN 3 respInit)).1 = .error (.interactionException
        "This interaction has already been responded to") :=
  ⟨(interaction_response_single_send ⟨true, 1⟩ 3).1 rfl,
   (interaction_response_single_send ⟨false, 0⟩ 3).2.1 rfl,
   (interaction_response_single_send ⟨false, 0⟩ 3).2.2.1,
   (interaction_response_single_send ⟨false, 0⟩ 3).2.2.2 (by decide)⟩

/-- C4: declaring two levels of sub-commands succeeds (the chain
top / group / sub leaves the sub-command at level 2), and calling `.command`
on an option whose level is already 2 raises the declaration-time
`ApplicationCommandException` (the spec's DeclarationError); on any other
level the declaration succeeds and the child sits one level deeper. -/
theorem option_command_depth (o : POpt) (nm ds : Option String)
    (nl dl : Tri (List (String × String))) (f : Func) :
    (o.level = 2 → optionCommand o nm ds nl dl f
      = .error (.appCommandException "Sub commands cannot be three levels deep"))
    ∧ (o.level ≠ 2 →
        ((optionCommand o nm ds nl dl f).map fun pc => pc.2.level)
          = .ok (o.level + 1))
    ∧ (c4Chain.map fun pc => pc.2.level) = .ok 2 := by
  refine ⟨fun h => ?_, fun h => ?_, rfl⟩
  · simp [optionCommand, optionInit, Tri.truthy, triListTruthy, h]
  · obtain ⟨c, opts, ss⟩ := o
    simp only [POpt.level, POpt.core] at h
    simp [optionCommand, optionInit, Tri.truthy, triListTruthy, h,
      POpt.level, POpt.withCore, POpt.core, POpt.subs, POpt.options,
      Except.map, pure, Except.pure, bind, Except.bind]

/-- C4 witness: attaching to the level-2 option raises; attaching to the
level-1 option yields a level-2 child; the two-level chain succeeds. -/
theorem option_command_depth_witness :
    optionCommand c4Opt2 (some "x") none .missing .missing subFunc
      = .error (.appCommandException "Sub commands cannot be three levels deep")
    ∧ ((optionCommand c4Opt1 (some "x") none .missing .missing subFunc).map
        fun pc => pc.2.level) = .ok 2
    ∧ (c4Chain.map fun pc => pc.2.level) = .ok 2 :=
  ⟨(option_command_depth c4Opt2 (some "x") none .missing .missing subFunc).1 rfl,
   (option_command_depth c4Opt1 (some "x") none .missing .missing subFunc).2.1
     (by decide),
   (option_command_depth c4Opt1 (some "x") none .missing .missing subFunc).2.2⟩

/-- C5: resolving a mentionable (wire type 9) option node. With a non-empty
`resolved.roles` map the node binds to the role resolved there — the
interaction (and so `resolved.users`) is arbitrary, in particular the users
map may hold the same id. With `resolved.roles` empty or absent, the
user/member path is taken: a member (with the user attached and no guild-id
argument) when the interaction has a guild id, the bare user otherwise. -/
theorem mentionable_resolution (cmd : AppCommand) (inter : InterCtx)
    (nm : String) (o : POpt) (v : ScalarVal) (foc : Bool) (r m u : PyVal)
    (hdict : alookup cmd.optionsDict (some nm) = some o) :
    (inter.resolved.roles ≠ [] → alookup inter.resolved.roles v = some r →
      processList cmd inter false (.cons (.mk nm 9 v .nil foc) .nil)
        = .ok ([], [(o.param, BoundVal.role r)]))
    ∧ (∀ gid, inter.resolved.roles = [] → inter.guildId = some gid →
        alookup inter.resolved.users v = some u →
        alookup inter.resolved.members v = some m →
        processList cmd inter false (.cons (.mk nm 9 v .nil foc) .nil)
          = .ok ([], [(o.param, BoundVal.member m u none)]))
    ∧ (inter.resolved.roles = [] → inter.guildId = none →
        alookup inter.resolved.users v = some u →
        processList cmd inter false (.cons (.mk nm 9 v .nil foc) .nil)
          = .ok ([], [(o.param, BoundVal.user u)])) := by
  refine ⟨fun hne hr => ?_, fun gid hroles hg hu hm => ?_,
    fun hroles hg hu => ?_⟩
  · have hne' : inter.resolved.roles.isEmpty = false := by
      cases hx : inter.resolved.roles with
      | nil => exact absurd hx hne
      | cons a t => rfl
    simp [processList, processNode, lookupE, hdict, hne', hr, bind, Except.bind, pure,
      Except.pure]
  · simp [processList, processNode, lookupE, hdict, hroles, hg, hu, hm, bind,
      Except.bind, pure, Except.pure]
  · simp [processList, processNode, lookupE, hdict, hroles, hg, hu, bind, Except.bind,
      pure, Except.pure]

/-- C5 witness: the three resolution paths at concrete interactions — the
role wins although the users map holds the same id; the member path with a
guild; the bare-user path without one. -/
theorem mentionable_resolution_witness :
    processList c5Cmd c5InterRoles false (.cons c5Node .nil)
      = .ok ([], [("x", BoundVal.role (.vstr "role5"))])
    ∧ processList c5Cmd c5InterMember false (.cons c5Node .nil)
      = .ok ([], [("x", BoundVal.member (.vstr "member5") (.vstr "user5") none)])
    ∧ processList c5Cmd c5InterUser false (.cons c5Node .nil)
      = .ok ([], [("x", BoundVal.user (.vstr "user5"))]) :=
  ⟨(mentionable_resolution c5Cmd c5InterRoles "men" c5Opt (.s "5") false
      (.vstr "role5") (.vstr "member5") (.vstr "user5") rfl).1
      (by simp [c5InterRoles]) rfl,
   (mentionable_resolution c5Cmd c5InterMember "men" c5Opt (.s "5") false
      (.vstr "role5") (.vstr "member5") (.vstr "user5") rfl).2.1
      "gld" rfl rfl rfl rfl,
   (mentionable_resolution c5Cmd c5InterUser "men" c5Opt (.s "5") false
      (.vstr "role5") (.vstr "member5") (.vstr "user5") rfl).2.2
      rfl rfl rfl⟩

/-- C10: constructing an `Option` with a truthy autocomplete flag publishes
an empty `choices` attribute regardless of the `choices` argument, keeps the
supplied choice objects only in the internal `_choices` attribute, and
serializes the `choices` key as an empty list (so the serialized form never
advertises a choice). -/
theorem autocomplete_choices_hidden (name description : Option String)
    (type : OptTypeArg) (nl dl : Tri (List (String × String)))
    (req : Tri Bool) (choices : Tri (List CommandChoice))
    (opts : Option POptList) (cht : Tri (List Nat)) (mn mx : Tri Int)
    (ac : Tri Bool) (hac : ac.truthy = true) :
    ((optionInit name description type nl dl req choices opts cht mn mx ac).map
        fun o => o.choices) = .ok (Tri.val [])
    ∧ ((optionInit name description type nl dl req choices opts cht mn mx ac).map
        fun o => o.choicesInternal) = .ok (some (triListOr choices))
    ∧ (∀ o, optionInit name description type nl dl req choices opts cht mn mx ac
        = .ok o → ("choices", PyVal.vlist []) ∈ toDictPairs o) := by
  have hval : ac = Tri.val true := by
    cases ac with
    | missing => simp [Tri.truthy] at hac
    | null => simp [Tri.truthy] at hac
    | val b =>
        cases b with
        | false => simp [Tri.truthy] at hac
        | true => rfl
  subst hval
  refine ⟨?_, ?_, fun o heq => ?_⟩
  · simp [optionInit, Tri.truthy, bind, Except.bind, pure, Except.pure,
      Except.map, POpt.choices, POpt.core]
  · simp [optionInit, Tri.truthy, bind, Except.bind, pure, Except.pure,
      Except.map, POpt.choicesInternal, POpt.core]
  · simp [optionInit, Tri.truthy, bind, Except.bind, pure, Except.pure] at heq
    subst heq
    simp [toDictPairs, mem_remove_undefined, optionEntries, triEnc, notMissing]

/-- C10 witness: an autocomplete option constructed with two supplied
choices (one of them with an unset `value` attribute) publishes no choices,
retains both internally, and serializes `choices` as the empty list. -/
theorem autocomplete_choices_hidden_witness :
    ((optionInit (some "q") none (.enumT 3) .missing .missing .missing
        (.val [c7Choice, commandChoiceInit "b" none (some (.s "bee"))])
        none .missing .missing .missing (.val true)).map
        fun o => o.choices) = .ok (Tri.val [])
    ∧ ((optionInit (some "q") none (.enumT 3) .missing .missing .missing
        (.val [c7Choice, commandChoiceInit "b" none (some (.s "bee"))])
        none .missing .missing .missing (.val true)).map
        fun o => o.choicesInternal)
      = .ok (some [c7Choice, commandChoiceInit "b" none (some (.s "bee"))]) :=
  ⟨(autocomplete_choices_hidden (some "q") none (.enumT 3) .missing .missing
      .missing (.val [c7Choice, commandChoiceInit "b" none (some (.s "bee"))])
      none .missing .missing .missing (.val true) rfl).1,
   (autocomplete_choices_hidden (some "q") none (.enumT 3) .missing .missing
      .missing (.val [c7Choice, commandChoiceInit "b" none (some (.s "bee"))])
      none .missing .missing .missing (.val true) rfl).2.1⟩

/-- C6: serialization of an `Option` through `to_dict`/`remove_undefined`.
The `MISSING` sentinel never appears among the serialized values; every
tri-state field is dropped when unset, emitted as null when explicitly null,
and emitted as its encoded value when present; the always-present fields
(`type`, `name`, `description`, `options`) are always emitted. -/
theorem option_to_dict_tristate (o : POpt) :
    (∀ k v, (k, v) ∈ toDictPairs o → v ≠ PyVal.vmissing)
    ∧ triFieldOk (toDictPairs o) "name_localizations" o.core.nameLoc encLoc
    ∧ triFieldOk (toDictPairs o) "description_localizations" o.core.descLoc encLoc
    ∧ triFieldOk (toDictPairs o) "required" o.core.required (fun b => .vbool b)
    ∧ triFieldOk (toDictPairs o) "choices" o.core.choices (fun l => .vlist l)
    ∧ triFieldOk (toDictPairs o) "channel_types" o.core.channelTypes
        (fun l => .vlist (l.map (fun n => .vint n)))
    ∧ triFieldOk (toDictPairs o) "min_value" o.core.minValue (fun n => .vint n)
    ∧ triFieldOk (toDictPairs o) "max_value" o.core.maxValue (fun n => .vint n)
    ∧ triFieldOk (toDictPairs o) "autocomplete" o.core.autocomplete
        (fun b => .vbool b)
    ∧ ("type", PyVal.vint o.core.ctype) ∈ toDictPairs o
    ∧ ("name", encOptStr o.core.cname) ∈ toDictPairs o
    ∧ ("description", PyVal.vstr o.core.description) ∈ toDictPairs o
    ∧ ("options", PyVal.vlist (toDictList o.options)) ∈ toDictPairs o := by
  obtain ⟨c, opts, ss⟩ := o
  refine ⟨fun k v hmem => ?_, ?_, ?_, ?_, ?_, ?_, ?_, ?_, ?_, ?_, ?_, ?_, ?_⟩
  · have := (mem_remove_undefined.mp (by simpa [toDictPairs] using hmem)).2
    exact notMissing_ne this
  · refine ⟨fun h v hmem => ?_, fun h => ?_, fun a h => ?_⟩
    · simp only [POpt.core] at h
      simp [toDictPairs, optionEntries, mem_remove_undefined, h,
        triEnc] at hmem
      rcases hmem with ⟨rfl, hbad⟩
      simp [notMissing] at hbad
    · simp only [POpt.core] at h
      simp [toDictPairs, optionEntries, mem_remove_undefined, h, triEnc,
        notMissing, encLoc]
    · simp only [POpt.core] at h
      simp [toDictPairs, optionEntries, mem_remove_undefined, h, triEnc,
        notMissing, encLoc]
  · refine ⟨fun h v hmem => ?_, fun h => ?_, fun a h => ?_⟩
    · simp only [POpt.core] at h
      simp [toDictPairs, optionEntries, mem_remove_undefined, h,
        triEnc] at hmem
      rcases hmem with ⟨rfl, hbad⟩
      simp [notMissing] at hbad
    · simp only [POpt.core] at h
      simp [toDictPairs, optionEntries, mem_remove_undefined, h, triEnc,
        notMissing, encLoc]
    · simp only [POpt.core] at h
      simp [toDictPairs, optionEntries, mem_remove_undefined, h, triEnc,
        notMissing, encLoc]
  · refine ⟨fun h v hmem => ?_, fun h => ?_, fun a h => ?_⟩
    · simp only [POpt.core] at h
      simp [toDictPairs, optionEntries, mem_remove_undefined, h,
        triEnc] at hmem
      rcases hmem with ⟨rfl, hbad⟩
      simp [notMissing] at hbad
    · simp only [POpt.core] at h
      simp [toDictPairs, optionEntries, mem_remove_undefined, h, triEnc,
        notMissing, encLoc]
    · simp only [POpt.core] at h
      simp [toDictPairs, optionEntries, mem_remove_undefined, h, triEnc,
        notMissing, encLoc]
  · refine ⟨fun h v hmem => ?_, fun h => ?_, fun a h => ?_⟩
    · simp only [POpt.core] at h
      simp [toDictPairs, optionEntries, mem_remove_undefined, h,
        triEnc] at hmem
      rcases hmem with ⟨rfl, hbad⟩
      simp [notMissing] at hbad
    · simp only [POpt.core] at h
      simp [toDictPairs, optionEntries, mem_remove_undefined, h, triEnc,
        notMissing, encLoc]
    · simp only [POpt.core] at h
      simp [toDictPairs, optionEntries, mem_remove_undefined, h, triEnc,
        notMissing, encLoc]
  · refine ⟨fun h v hmem => ?_, fun h => ?_, fun a h => ?_⟩
    · simp only [POpt.core] at h
      simp [toDictPairs, optionEntries, mem_remove_undefined, h,
        triEnc] at hmem
      rcases hmem with ⟨rfl, hbad⟩
      simp [notMissing] at hbad
    · simp only [POpt.core] at h
      simp [toDictPairs, optionEntries, mem_remove_undefined, h, triEnc,
        notMissing, encLoc]
    · simp only [POpt.core] at h
      simp [toDictPairs, optionEntries, mem_remove_undefined, h, triEnc,
        notMissing, encLoc]
  · refine ⟨fun h v hmem => ?_, fun h => ?_, fun a h => ?_⟩
    · simp only [POpt.core] at h
      simp [toDictPairs, optionEntries, mem_remove_undefined, h,
        triEnc] at hmem
      rcases hmem with ⟨rfl, hbad⟩
      simp [notMissing] at hbad
    · simp only [POpt.core] at h
      simp [toDictPairs, optionEntries, mem_remove_undefined, h, triEnc,
        notMissing, encLoc]
    · simp only [POpt.core] at h
      simp [toDictPairs, optionEntries, mem_remove_undefined, h, triEnc,
        notMissing, encLoc]
  · refine ⟨fun h v hmem => ?_, fun h => ?_, fun a h => ?_⟩
    · simp only [POpt.core] at h
      simp [toDictPairs, optionEntries, mem_remove_undefined, h,
        triEnc] at hmem
      rcases hmem with ⟨rfl, hbad⟩
      simp [notMissing] at hbad
    · simp only [POpt.core] at h
      simp [toDictPairs, optionEntries, mem_remove_undefined, h, triEnc,
        notMissing, encLoc]
    · simp only [POpt.core] at h
      simp [toDictPairs, optionEntries, mem_remove_undefined, h, triEnc,
        notMissing, encLoc]
  · refine ⟨fun h v hmem => ?_, fun h => ?_, fun a h => ?_⟩
    · simp only [POpt.core] at h
      simp [toDictPairs, optionEntries, mem_remove_undefined, h,
        triEnc] at hmem
      rcases hmem with ⟨rfl, hbad⟩
      simp [notMissing] at hbad
    · simp only [POpt.core] at h
      simp [toDictPairs, optionEntries, mem_remove_undefined, h, triEnc,
        notMissing, encLoc]
    · simp only [POpt.core] at h
      simp [toDictPairs, optionEntries, mem_remove_undefined, h, triEnc,
        notMissing, encLoc]
  · simp [toDictPairs, optionEntries, mem_remove_undefined, triEnc,
      notMissing, POpt.core, POpt.options, encOptStr]
  · cases hn : c.cname <;>
      simp [toDictPairs, optionEntries, mem_remove_undefined, triEnc,
        notMissing, POpt.core, POpt.options, encOptStr, hn]
  · simp [toDictPairs, optionEntries, mem_remove_undefined, triEnc,
      notMissing, POpt.core, POpt.options, encOptStr]
  · simp [toDictPairs, optionEntries, mem_remove_undefined, triEnc,
      notMissing, POpt.core, POpt.options, encOptStr]

/-- C6 witness: the mixed option serializes with its unset localization key
absent, its explicit-null localization as null, its present `required` and
`min_value` values verbatim, and the always-present `type` key. -/
theorem option_to_dict_tristate_witness :
    ("name_localizations", PyVal.vnull) ∉ toDictPairs c6Opt
    ∧ ("description_localizations", PyVal.vnull) ∈ toDictPairs c6Opt
    ∧ ("required", PyVal.vbool true) ∈ toDictPairs c6Opt
    ∧ ("min_value", PyVal.vint 3) ∈ toDictPairs c6Opt
    ∧ ("type", PyVal.vint 3) ∈ toDictPairs c6Opt :=
  ⟨(option_to_dict_tristate c6Opt).2.1.1 rfl PyVal.vnull,
   (option_to_dict_tristate c6Opt).2.2.1.2.1 rfl,
   (option_to_dict_tristate c6Opt).2.2.2.1.2.2 true rfl,
   (option_to_dict_tristate c6Opt).2.2.2.2.2.2.1.2.2 3 rfl,
   (option_to_dict_tristate c6Opt).2.2.2.2.2.2.2.2.2.1⟩

theorem pyAutocompleteGo_all_set (cs : List CommandChoice) (sl : String)
    (h : ∀ c ∈ cs, c.value?.isSome = true) :
    pyAutocompleteGo cs sl
      = .ok ((cs.filter (fun c => acMatch c sl)).map choiceToDict) := by
  induction cs with
  | nil => rfl
  | cons c t ih =>
      obtain ⟨v, hv⟩ := Option.isSome_iff_exists.mp (h c (by simp))
      have ht := ih (fun c' hc' => h c' (by simp [hc']))
      by_cases hc : containsSub (strLower (pyStr v)).data sl.data
        = true <;>
        simp [pyAutocompleteGo, hv, ht, acMatch, choiceToDict, hc, bind,
          Except.bind, pure, Except.pure, List.filter]

theorem pyAutocomplete_all_set (cs : List CommandChoice) (s : String)
    (h : ∀ c ∈ cs, c.value?.isSome = true) :
    pyAutocomplete cs s
      = .ok ((cs.filter (fun c => acMatch c (strLower s))).map choiceToDict) :=
  pyAutocompleteGo_all_set cs (strLower s) h

/-- C7 amended: on an autocomplete interaction naming the command, the
completer registered for the declared option of the payload's first listed
node (the default `_autocomplete`) is invoked with that node's partial
input — the node's focused flag is not consulted, so this is the focused
option exactly when it is listed first; the completer matches
case-insensitively, lower-casing both the input and each choice's
comparison value, over the internally-registered choice list, and every
matching (name, value) choice dictionary is returned with no truncation to
the platform's maximum choice count. -/
theorem autocomplete_first_option_untruncated (cmd : AppCommand)
    (data : AcData) (o0 : AcNode) (rest : List AcNode) (opt : POpt)
    (cs : List CommandChoice)
    (hname : data.dataName = some cmd.name)
    (hopts : data.options = o0 :: rest)
    (hlook : alookup cmd.optionsDict (some o0.name) = some opt)
    (hcs : opt.choicesInternal = some cs)
    (hvals : ∀ c ∈ cs, c.value?.isSome = true) :
    invokeAutocomplete cmd data
      = .ok (some ((cs.filter (fun c => acMatch c (strLower o0.value))).map
          choiceToDict)) := by
  simp [invokeAutocomplete, hname, hopts, lookupE, hlook, hcs,
    pyAutocomplete_all_set cs o0.value hvals, bind, Except.bind, pure,
    Except.pure]

/-- C7 amended witness: the 26-choice option returns all 26 matches of the
partial input "a" through the dispatch, and on the payload whose first node
is unfocused the first option's completer still runs (returning its own
matches of "b"). -/
theorem autocomplete_first_option_untruncated_witness :
    invokeAutocomplete c7Cmd c7Data
      = .ok (some (((List.replicate 26 c7Choice).filter
          (fun c => acMatch c (strLower "a"))).map choiceToDict))
    ∧ invokeAutocomplete c7Cmd2 c7Data2
      = .ok (some (([c7Choice].filter
          (fun c => acMatch c (strLower "b"))).map choiceToDict)) :=
  ⟨autocomplete_first_option_untruncated c7Cmd c7Data ⟨"q", "a", true⟩ []
    c7Opt (List.replicate 26 c7Choice) rfl rfl rfl rfl (by decide),
   autocomplete_first_option_untruncated c7Cmd2 c7Data2 ⟨"q1", "b", false⟩
    [⟨"q2", "b", true⟩] c7OptQ1 [c7Choice] rfl rfl rfl rfl (by decide)⟩

theorem processList_head_miss (cmd : AppCommand) (inter : InterCtx) (g : Bool)
    (nm : String) (ty : Nat) (v : ScalarVal) (opts : InterOptions) (foc : Bool)
    (rest : InterOptions) (o : POpt)
    (hdict : alookup cmd.optionsDict (some nm) = some o)
    (hmiss : resolvedMiss inter ty v = true) :
    processList cmd inter g (.cons (.mk nm ty v opts foc) rest)
      = .error (.keyError (pyStr v)) := by
  by_cases h6 : ty = 6
  · subst h6
    simp only [resolvedMiss] at hmiss
    cases hu : alookup inter.resolved.users v with
    | none =>
        simp [processList, processNode, lookupE, hdict, hu, bind, Except.bind]
    | some u =>
        rw [hu] at hmiss
        simp at hmiss
        obtain ⟨hg', hm'⟩ := hmiss
        obtain ⟨gid, hg⟩ := Option.isSome_iff_exists.mp hg'
        have hm := hm'
        simp [processList, processNode, lookupE, hdict, hu, hg, hm, bind, Except.bind,
          pure, Except.pure]
  by_cases h7 : ty = 7
  · subst h7
    simp only [resolvedMiss] at hmiss
    simp at hmiss
    have hc := hmiss
    simp [processList, processNode, lookupE, hdict, hc, bind, Except.bind]
  by_cases h8 : ty = 8
  · subst h8
    simp only [resolvedMiss] at hmiss
    simp at hmiss
    have hr := hmiss
    simp [processList, processNode, lookupE, hdict, hr, bind, Except.bind]
  by_cases h9 : ty = 9
  · subst h9
    simp only [resolvedMiss] at hmiss
    cases hrl : inter.resolved.roles with
    | cons a t =>
        rw [hrl] at hmiss
        simp at hmiss
        have hr := hmiss
        simp [processList, processNode, lookupE, hdict, hrl, hr, bind, Except.bind]
    | nil =>
        rw [hrl] at hmiss
        simp at hmiss
        cases hu : alookup inter.resolved.users v with
        | none =>
            simp [processList, processNode, lookupE, hdict, hrl, hu, bind, Except.bind]
        | some u =>
            rw [hu] at hmiss
            simp at hmiss
            obtain ⟨hg', hm'⟩ := hmiss
            obtain ⟨gid, hg⟩ := Option.isSome_iff_exists.mp hg'
            have hm := hm'
            simp [processList, processNode, lookupE, hdict, hrl, hu, hg, hm, bind,
              Except.bind, pure, Except.pure]
  by_cases h11 : ty = 11
  · subst h11
    simp only [resolvedMiss] at hmiss
    simp at hmiss
    have ha := hmiss
    simp [processList, processNode, lookupE, hdict, ha, bind, Except.bind]
  · simp [resolvedMiss, h6, h7, h8, h9, h11] at hmiss

theorem processList_cons_ok (cmd : AppCommand) (inter : InterCtx) (g : Bool)
    (x : InterOption) (t : InterOptions)
    (res : List CallEvent × List (String × BoundVal))
    (h : processList cmd inter g (.cons x t) = .ok res) :
    ∃ r, processList cmd inter g t = .ok r := by
  obtain ⟨nm, ty, v, opts, foc⟩ := x
  simp only [processList, bind, Except.bind] at h
  split at h
  · exact absurd h (by simp)
  · split at h
    · exact absurd h (by simp)
    · split at h
      · exact absurd h (by simp)
      · next _ _ _ ht => exact ⟨_, ht⟩

theorem processList_cons_of_tail_error (cmd : AppCommand) (inter : InterCtx)
    (g : Bool) (x : InterOption) (t : InterOptions)
    (h : ∃ e, processList cmd inter g t = .error e) :
    ∃ e, processList cmd inter g (.cons x t) = .error e := by
  obtain ⟨e, he⟩ := h
  cases hc : processList cmd inter g (.cons x t) with
  | error e' => exact ⟨e', rfl⟩
  | ok res =>
      obtain ⟨r, hr⟩ := processList_cons_ok cmd inter g x t res hc
      rw [he] at hr
      exact absurd hr (by simp)

/-- Any list containing a node whose resolved lookup misses decodes to an
error: the fold short-circuits at the first failing node. -/
theorem processList_mem_error (cmd : AppCommand) (inter : InterCtx)
    (node : InterOption) (o : POpt)
    (hdict : alookup cmd.optionsDict (some node.name) = some o)
    (hmiss : resolvedMiss inter node.otype node.value = true) :
    ∀ (L : InterOptions) (g : Bool), node ∈ L.toList →
      ∃ e, processList cmd inter g L = .error e
  | .nil, g, hmem => absurd hmem (by simp [InterOptions.toList])
  | .cons x t, g, hmem => by
      rw [InterOptions.toList, List.mem_cons] at hmem
      rcases hmem with hx | hx
      · subst hx
        obtain ⟨nm, ty, v, opts, foc⟩ := node
        exact ⟨_, processList_head_miss cmd inter g nm ty v opts foc t o
          hdict hmiss⟩
      · exact processList_cons_of_tail_error cmd inter g x t
          (processList_mem_error cmd inter node o hdict hmiss t g hx)

/-- C8: an option node whose referenced id misses the resolved map its wire
type resolves through makes `_process_options` fail with the resolved-lookup
KeyError (the spec's PayloadIntegrityError): the whole decode returns an
error — no binding is produced in its place — and when the node is first the
error is exactly the lookup's KeyError on the referenced id. -/
theorem resolved_miss_raises (cmd : AppCommand) (inter : InterCtx) (g : Bool)
    (L : InterOptions) (node : InterOption) (o : POpt)
    (hmem : node ∈ L.toList)
    (hdict : alookup cmd.optionsDict (some node.name) = some o)
    (hmiss : resolvedMiss inter node.otype node.value = true) :
    isOkE (processList cmd inter g L) = false
    ∧ ∀ rest, processList cmd inter g (.cons node rest)
        = .error (.keyError (pyStr node.value)) := by
  refine ⟨?_, fun rest => ?_⟩
  · obtain ⟨e, he⟩ := processList_mem_error cmd inter node o hdict hmiss L g hmem
    rw [he]
    rfl
  · obtain ⟨nm, ty, v, opts, foc⟩ := node
    exact processList_head_miss cmd inter g nm ty v opts foc rest o hdict hmiss

/-- C8 witness: a type-6 (user) node referencing id "9" against empty
resolved maps makes the decode fail with the lookup's KeyError. -/
theorem resolved_miss_raises_witness :
    isOkE (processList c8Cmd c8Inter false
      (.cons (.mk "e" 6 (.s "9") .nil false) .nil)) = false
    ∧ processList c8Cmd c8Inter false
        (.cons (.mk "e" 6 (.s "9") .nil false) .nil)
      = .error (.keyError "9") :=
  ⟨(resolved_miss_raises c8Cmd c8Inter false
      (.cons (.mk "e" 6 (.s "9") .nil false) .nil)
      (.mk "e" 6 (.s "9") .nil false) c8Opt
      (by simp [InterOptions.toList]) rfl rfl).1,
   (resolved_miss_raises c8Cmd c8Inter false
      (.cons (.mk "e" 6 (.s "9") .nil false) .nil)
      (.mk "e" 6 (.s "9") .nil false) c8Opt
      (by simp [InterOptions.toList]) rfl rfl).2 .nil⟩
